import Mathlib

/-!
# Verification of the LX-music lyrics SSE client core

A shallow embedding of the streaming core of `src/main.py`:
the SSE event-block parser (`SSEClient._parse_event_data`), the
global music-data store and its update path
(`MusicData`, `SSEClient._update_music_data`), the read loop and
failure handling of `SSEClient.start`, and the `stop` / retry-timer
lifecycle.

Python dynamic values that can flow through this code are modelled by
`PyVal` (a string, or a JSON-decoded object).  Python floats are
modelled by `PyFloat` (NaN, the two infinities, or a finite rational):
the code only ever parses decimal-or-keyword literals and compares /
clamps with `max`, so only the IEEE comparison semantics — in which
NaN compares false with everything — is needed, no rounding.
`json.loads` is an external library; it is modelled as an arbitrary
parameter `jl : String → Option PyVal` (`none` = `JSONDecodeError`),
so every theorem quantifying over `jl` holds for the real decoder.
-/

/-- A Python value that can appear as an SSE payload: either a string,
or a JSON-decoded object (`dict`).  The code never reads the members of
a decoded object (only its truthiness), so member values are kept as
raw JSON text. -/
inductive PyVal where
  | str (s : String)
  | obj (entries : List (String × String))
deriving DecidableEq

/-- Model of a Python float as produced by `float(...)` in this code:
NaN, ±infinity, or a finite value (kept exact as a rational). -/
inductive PyFloat where
  | nan
  | inf
  | ninf
  | fin (q : ℚ)
deriving DecidableEq

/-- The Python exceptions relevant to `_update_music_data`:
`float(str)` raises `ValueError` on an unparsable string, and
`float(dict)` raises `TypeError`. -/
inductive PyExc where
  | valueError
  | typeError
deriving DecidableEq

/-- IEEE `>` on modelled floats: any comparison involving NaN is false. -/
def pygt : PyFloat → PyFloat → Bool
  | .nan, _ => false
  | _, .nan => false
  | .inf, .inf => false
  | .inf, _ => true
  | _, .inf => false
  | .ninf, _ => false
  | .fin _, .ninf => true
  | .fin x, .fin y => decide (y < x)

/-- IEEE `≥` on modelled floats: any comparison involving NaN is false. -/
def pyge : PyFloat → PyFloat → Bool
  | .nan, _ => false
  | _, .nan => false
  | .inf, _ => true
  | .ninf, .ninf => true
  | .ninf, _ => false
  | .fin _, .ninf => true
  | .fin _, .inf => false
  | .fin x, .fin y => decide (y ≤ x)

/-- Python `max(a, b)`: returns `b` exactly when `b > a`
(so `max(nan, x) = nan`, since every comparison with NaN is false). -/
def pymax (a b : PyFloat) : PyFloat :=
  if pygt b a then b else a

/-- The ASCII whitespace stripped by Python's `str.strip()`
(the model is restricted to ASCII whitespace). -/
def isPySpace (c : Char) : Bool :=
  c = ' ' || c = '\t' || c = '\n' || c = '\r' || c = '\x0b' || c = '\x0c'

/-- `str.strip()` on the character list: drop whitespace at both ends. -/
def stripChars (l : List Char) : List Char :=
  ((l.dropWhile isPySpace).reverse.dropWhile isPySpace).reverse

/-- Python `line.strip()`. -/
def pyStrip (s : String) : String :=
  ⟨stripChars s.data⟩

/-- Python `s[n:]`: drop the first `n` characters. -/
def strDrop (n : Nat) (s : String) : String :=
  ⟨s.data.drop n⟩

/-- Python `s.startswith(p)`. -/
def strHasPre (p s : String) : Bool :=
  List.isPrefixOf p.data s.data

/-- Python `str.split('\n')`: split at every newline, keeping empty
pieces, so the empty string yields one empty piece. -/
def splitOnNl : List Char → List (List Char)
  | [] => [[]]
  | c :: cs =>
    if c = '\n' then [] :: splitOnNl cs
    else
      match splitOnNl cs with
      | [] => [[c]]
      | l :: ls => (c :: l) :: ls

/-- `event_data.split('\n')` on strings. -/
def splitNlStr (s : String) : List String :=
  (splitOnNl s.data).map (fun l => ⟨l⟩)

/-- Does the (already stripped) payload start with `'"'` or `'{'`?
Mirrors `data.startswith(('"', '{'))` in `_parse_event_data`. -/
def startsJson (d : String) : Bool :=
  match d.data with
  | [] => false
  | c :: _ => c = '"' || c = '{'

/-- The JSON step of `_parse_event_data`: try `json.loads` only when
the trimmed payload starts with `'"'` or `'{'`; a decode failure
(`jl d = none`, i.e. `JSONDecodeError`) keeps the raw trimmed string. -/
def decodePayload (jl : String → Option PyVal) (d : String) : PyVal :=
  if startsJson d then (jl d).getD (.str d) else .str d

/-- One iteration of the `for line in event_data.split('\n')` loop of
`SSEClient._parse_event_data`, carried over the
`(event_type, data)` accumulator. -/
def parseStep (jl : String → Option PyVal) (acc : String × PyVal) (line : String) :
    String × PyVal :=
  let l := pyStrip line
  if strHasPre "event:" l then (pyStrip (strDrop 6 l), acc.2)
  else if strHasPre "data:" l then (acc.1, decodePayload jl (pyStrip (strDrop 5 l)))
  else acc

/-- `SSEClient._parse_event_data`: split the block at newlines and fold
the line loop from the initial `("", "")` accumulator. -/
def parse_event_data (jl : String → Option PyVal) (event_data : String) :
    String × PyVal :=
  (splitNlStr event_data).foldl (parseStep jl) ("", .str "")

/-- Specification-side view of one line: the value an `event:` line
contributes (the trimmed remainder), or `none` for any other line. -/
def evOf (line : String) : Option String :=
  let l := pyStrip line
  if strHasPre "event:" l then some (pyStrip (strDrop 6 l)) else none

/-- Specification-side view of one line: the raw trimmed payload a
`data:` line contributes, or `none` for any other line. -/
def dataOf (line : String) : Option String :=
  let l := pyStrip line
  if strHasPre "data:" l then some (pyStrip (strDrop 5 l)) else none

/-- The contribution of the last line matched by `f`, if any. -/
def findLast (f : String → Option String) : List String → Option String
  | [] => none
  | l :: ls =>
    match findLast f ls with
    | some r => some r
    | none => f l

/-- Does the string avoid leading and trailing Python whitespace? -/
def noEdgeSpace (s : String) : Bool :=
  (match s.data.head? with
   | some c => !isPySpace c
   | none => true) &&
  (match s.data.getLast? with
   | some c => !isPySpace c
   | none => true)

example : parse_event_data (fun _ => none) "event:name\ndata:hello" =
    ("name", .str "hello") := by decide

example : parse_event_data (fun _ => none) "event: duration \nother\ndata: 12 " =
    ("duration", .str "12") := by decide

/-- Numeric value of one ASCII digit. -/
def digitVal (c : Char) : Nat :=
  c.toNat - 48

/-- Value of a run of ASCII digits. -/
def natOfDigits (l : List Char) : Nat :=
  l.foldl (fun n c => 10 * n + digitVal c) 0

/-- Unsigned decimal literal accepted by Python's `float(...)`:
`digits [. digits] [e|E [sign] digits]`, needing at least one mantissa
digit.  (Digit-group underscores are not modelled; no claim uses them.) -/
def parseDecimal (l : List Char) : Option ℚ :=
  let ip := l.takeWhile Char.isDigit
  let r1 := l.dropWhile Char.isDigit
  let fp := match r1 with
            | '.' :: rest => rest.takeWhile Char.isDigit
            | _ => []
  let r2 := match r1 with
            | '.' :: rest => rest.dropWhile Char.isDigit
            | _ => r1
  if ip.isEmpty && fp.isEmpty then none
  else
    let base : ℚ := (natOfDigits ip : ℚ) + (natOfDigits fp : ℚ) / (10 ^ fp.length)
    match r2 with
    | [] => some base
    | e :: rest =>
      if e = 'e' || e = 'E' then
        let pos : Bool := match rest with
                          | '-' :: _ => false
                          | _ => true
        let ds := match rest with
                  | '+' :: rs => rs
                  | '-' :: rs => rs
                  | rs => rs
        if !ds.isEmpty && ds.all Char.isDigit then
          some (if pos then base * 10 ^ natOfDigits ds else base / 10 ^ natOfDigits ds)
        else none
      else none

/-- Python's `float(s)` on a string: strip, optional sign, then the
case-insensitive keywords `inf` / `infinity` / `nan` or a decimal
literal; `none` models a raised `ValueError`. -/
def pyfloat (s : String) : Option PyFloat :=
  let l := stripChars s.data
  let pos : Bool := match l with
                    | '-' :: _ => false
                    | _ => true
  let body := match l with
              | '+' :: r => r
              | '-' :: r => r
              | r => r
  let lower := body.map Char.toLower
  if lower = ['i', 'n', 'f'] || lower = ['i', 'n', 'f', 'i', 'n', 'i', 't', 'y'] then
    some (if pos then .inf else .ninf)
  else if lower = ['n', 'a', 'n'] then some .nan
  else
    match parseDecimal body with
    | some q => some (.fin (if pos then q else -q))
    | none => none

example : pyfloat "abc" = none := by decide
example : ∃ q, pyfloat "12" = some (.fin q) := ⟨_, rfl⟩
example : ∃ q, pyfloat " 3.5 " = some (.fin q) := ⟨_, rfl⟩
example : pyfloat "nan" = some .nan := by decide
example : pyfloat "-inf" = some .ninf := by decide
example : pyfloat "" = none := by decide

/-- Python truthiness of a payload value (`if data:`): a string is
truthy when non-empty, a dict when it has members. -/
def pyTruthy : PyVal → Bool
  | .str s => !(s == "")
  | .obj entries => !entries.isEmpty

/-- Python `float(data)` on a payload value: a string parses or raises
`ValueError`; a dict always raises `TypeError`. -/
def pyFloatOfVal : PyVal → Except PyExc PyFloat
  | .str s =>
    match pyfloat s with
    | some f => .ok f
    | none => .error .valueError
  | .obj _ => .error .typeError

/-- The global `MusicData` store of `src/main.py`: one field per
recognised event type. -/
structure MusicData where
  lyrics_text : PyVal
  song_name : PyVal
  artist : PyVal
  cover_url : PyVal
  duration : PyFloat
  progress : PyFloat
deriving DecidableEq

/-- `MusicData.__init__`: empty strings and zero durations. -/
def initMusicData : MusicData :=
  ⟨.str "", .str "", .str "", .str "", .fin 0, .fin 0⟩

/-- The dict emitted on `update_signal` by `_update_music_data`:
exactly the six keys `lyrics`, `title`, `artist`, `cover_url`,
`duration`, `progress`. -/
structure Snapshot where
  lyrics : PyVal
  title : PyVal
  artist : PyVal
  cover_url : PyVal
  duration : PyFloat
  progress : PyFloat
deriving DecidableEq

/-- The snapshot holding the store's current field values. -/
def snapshotOf (st : MusicData) : Snapshot :=
  ⟨st.lyrics_text, st.song_name, st.artist, st.cover_url, st.duration, st.progress⟩

/-- `max(float(data), 0.0) if data else 0.0` for the `duration` /
`progress` branches, threaded through the field setter. -/
def numericUpdate (st : MusicData) (d : PyVal)
    (setF : MusicData → PyFloat → MusicData) : Except PyExc MusicData :=
  if pyTruthy d then
    match pyFloatOfVal d with
    | .ok f => .ok (setF st (pymax f (.fin 0)))
    | .error e => .error e
  else .ok (setF st (.fin 0))

/-- The field-update chain inside the `try` of `_update_music_data`:
either the new store state, or the exception raised while computing the
assignment (in which case no field has been assigned yet, since each
branch performs a single assignment whose right-hand side raises). -/
def tryBody (st : MusicData) (ty : String) (d : PyVal) : Except PyExc MusicData :=
  if ty = "lyricLineAllText" then .ok { st with lyrics_text := d }
  else if ty = "name" then .ok { st with song_name := d }
  else if ty = "singer" then .ok { st with artist := d }
  else if ty = "picUrl" then .ok { st with cover_url := d }
  else if ty = "duration" then numericUpdate st d (fun s f => { s with duration := f })
  else if ty = "progress" then numericUpdate st d (fun s f => { s with progress := f })
  else .ok st

/-- Result of one `_update_music_data` call: the store state afterwards,
the snapshots emitted on `update_signal`, whether the `ValueError`
handler logged its warning, and the exception escaping to the caller
(if any). -/
structure UpdateResult where
  state : MusicData
  emitted : List Snapshot
  warned : Bool
  exn : Option PyExc
deriving DecidableEq

/-- `SSEClient._update_music_data`: run the field update and, still
inside the `try`, emit one snapshot of the store; `except ValueError`
logs a warning (skipping the emit); any other exception escapes. -/
def update_music_data (st : MusicData) (ty : String) (d : PyVal) : UpdateResult :=
  match tryBody st ty d with
  | .ok st2 => ⟨st2, [snapshotOf st2], false, none⟩
  | .error .valueError => ⟨st, [], true, none⟩
  | .error .typeError => ⟨st, [], false, some .typeError⟩

example : (update_music_data initMusicData "duration" (.str "abc")).state.duration =
    .fin 0 := by decide
example : (update_music_data initMusicData "duration" (.str "abc")).warned = true := by
  decide
example : (update_music_data initMusicData "name" (.str "A")).state.song_name =
    .str "A" := by decide

/-- Default strings published when the connection fails
(`DEFAULT_LYRIC`, `DEFAULT_TITLE`, `DEFAULT_ARTIST` in the source). -/
def DEFAULT_LYRIC : String := "等待音乐软件传输数据..."

/-- Sentinel title for an unknown song. -/
def DEFAULT_TITLE : String := "未知歌曲"

/-- Sentinel artist for an unknown singer. -/
def DEFAULT_ARTIST : String := "未知歌手"

/-- The "cleared" snapshot emitted by the `RequestException` handler of
`SSEClient.start`: sentinel strings, empty cover, zero times. -/
def clearedSnapshot : Snapshot :=
  ⟨.str DEFAULT_LYRIC, .str DEFAULT_TITLE, .str DEFAULT_ARTIST, .str "", .fin 0, .fin 0⟩

/-- Observable actions of one `SSEClient.start` invocation, in program
order: a snapshot emitted on `update_signal`, or the 5-second
`threading.Timer` retry being scheduled. -/
inductive ClientAct where
  | emit (s : Snapshot)
  | schedRetry
deriving DecidableEq

/-- The `self.running` flag as seen at the `i`-th check of one `start`
invocation.  `start` sets the flag, so it reads true until `stop()`
clears it from another thread: `stopAt = some k` means the flag reads
false from check `k` on; `none` means `stop()` is never called during
this invocation. -/
def flagAt (stopAt : Option Nat) (i : Nat) : Bool :=
  match stopAt with
  | none => true
  | some k => decide (i < k)

/-- How the `for line in response.iter_lines(...)` loop ends. -/
inductive LoopExit where
  | finished
  | stopped
  | raised (e : PyExc)
deriving DecidableEq

/-- Result of the read loop: store state, emitted snapshots (in order),
how the loop ended, and the number of `self.running` checks performed
(used as the flag index for the later exception handler). -/
structure LoopResult where
  state : MusicData
  actions : List ClientAct
  exit : LoopExit
  idx : Nat
deriving DecidableEq

/-- The `for line in response.iter_lines(...)` body of
`SSEClient.start`: check the running flag, buffer non-blank lines, and
on a blank line flush the buffer through `_parse_event_data` /
`_update_music_data`.  An exception escaping `_update_music_data`
aborts the loop. -/
def loopGo (jl : String → Option PyVal) (stopAt : Option Nat) (i : Nat)
    (st : MusicData) (buf : List String) : List String → LoopResult
  | [] => ⟨st, [], .finished, i⟩
  | l :: rest =>
    if flagAt stopAt i then
      if l ≠ "" then loopGo jl stopAt (i + 1) st (buf ++ [l]) rest
      else if buf.isEmpty then loopGo jl stopAt (i + 1) st buf rest
      else
        let p := parse_event_data jl (String.intercalate "\n" buf)
        let r := update_music_data st p.1 p.2
        match r.exn with
        | some e => ⟨r.state, r.emitted.map ClientAct.emit, .raised e, i⟩
        | none =>
          let res := loopGo jl stopAt (i + 1) r.state [] rest
          ⟨res.state, r.emitted.map ClientAct.emit ++ res.actions, res.exit, res.idx⟩
    else ⟨st, [], .stopped, i⟩

/-- How one opened connection behaves: the initial request raises a
`requests.RequestException`, or it streams a sequence of lines and
then either closes cleanly or raises a `RequestException`. -/
inductive StreamEnd where
  | closed
  | transportError
deriving DecidableEq

/-- One connection attempt as seen by `SSEClient.start`. -/
inductive Conn where
  | connectFail
  | stream (lines : List String) (ending : StreamEnd)
deriving DecidableEq

/-- Result of one `SSEClient.start` invocation: final store state, the
observable actions in program order, and whether the 5-second retry
timer was scheduled. -/
structure AttemptResult where
  state : MusicData
  actions : List ClientAct
  retryScheduled : Bool
deriving DecidableEq

/-- One invocation of `SSEClient.start` over a given connection
behaviour.  A `RequestException` (failed connect, or a transport error
after the streamed lines ran out) reaches the handler that emits the
cleared snapshot and then schedules the retry timer iff the running
flag still reads true; a break (flag cleared) or any other exception
(blanket `except Exception`) ends the invocation with no retry. -/
def startOnce (jl : String → Option PyVal) (stopAt : Option Nat)
    (st : MusicData) : Conn → AttemptResult
  | .connectFail =>
    ⟨st, .emit clearedSnapshot :: (if flagAt stopAt 0 then [.schedRetry] else []),
      flagAt stopAt 0⟩
  | .stream lines ending =>
    let r := loopGo jl stopAt 0 st [] lines
    match r.exit with
    | .finished =>
      match ending with
      | .transportError =>
        ⟨r.state,
          r.actions ++ .emit clearedSnapshot ::
            (if flagAt stopAt r.idx then [.schedRetry] else []),
          flagAt stopAt r.idx⟩
      | .closed => ⟨r.state, r.actions, false⟩
    | .stopped => ⟨r.state, r.actions, false⟩
    | .raised _ => ⟨r.state, r.actions, false⟩

/-- The client lifecycle around the retry timer, abstracted over real
time (in seconds).  `running` is the shared flag, `timers` the
deadlines of pending `threading.Timer` objects — the source keeps no
reference to them, so `stop()` leaves them in place. -/
structure SchedState where
  running : Bool
  timers : List Nat
  clock : Nat
deriving DecidableEq

/-- Lifecycle events: a `RequestException` handler run, a `stop()`
call, or a pending timer firing (re-invoking `start`). -/
inductive SchedEv where
  | fail
  | stop
  | fire (d : Nat)
deriving DecidableEq

/-- One timestamped lifecycle step.  `fail` schedules a new timer for
5 seconds later iff the flag still reads true; `stop` only clears the
flag (the source cancels nothing); `fire d` is admissible only for a
pending timer whose deadline has passed, and runs `start`, whose first
statement sets `running = True`. -/
def schedStep (s : SchedState) : Nat × SchedEv → Option SchedState
  | (t, e) =>
    if t < s.clock then none
    else
      match e with
      | .fail =>
        some { s with clock := t,
                      timers := if s.running then s.timers ++ [t + 5] else s.timers }
      | .stop => some { s with clock := t, running := false }
      | .fire d =>
        if s.timers.contains d && decide (d ≤ t) then
          some { running := true, timers := s.timers.erase d, clock := t }
        else none

/-- Run a sequence of timestamped lifecycle events; `none` marks an
inadmissible sequence (time going backwards, or a timer firing that is
not pending and due). -/
def schedRun : SchedState → List (Nat × SchedEv) → Option SchedState
  | s, [] => some s
  | s, ev :: evs =>
    match schedStep s ev with
    | some s2 => schedRun s2 evs
    | none => none

example : schedRun ⟨true, [], 0⟩ [(0, .fail), (2, .stop)] =
    some ⟨false, [5], 2⟩ := by decide
example : schedRun ⟨true, [], 0⟩ [(0, .fail), (2, .stop), (5, .fire 5)] =
    some ⟨true, [], 5⟩ := by decide
example : schedRun ⟨true, [], 0⟩ [(0, .fail), (2, .stop), (4, .fire 5)] = none := by
  decide

/-- An HTTP request as issued through `requests.Session.get`. -/
structure HttpRequest where
  method : String
  url : String
  headers : List (String × String)
  params : List (String × String)
  stream : Bool
deriving DecidableEq

/-- The subscription endpoint (`SSE_URL` in the source). -/
def SSE_URL : String := "http://127.0.0.1:23330/subscribe-player-status"

/-- The one request `SSEClient.start` opens:
`self.session.get(self.url, headers=..., params=..., stream=True)`. -/
def sseRequest (url : String) : HttpRequest :=
  ⟨"GET", url,
   [("Accept", "text/event-stream"), ("Cache-Control", "no-cache")],
   [("filter", "lyricLineAllText,name,singer,picUrl,duration,progress")],
   true⟩


/-- C9: every connection the client opens is a GET request carrying
exactly the headers `Accept: text/event-stream` and
`Cache-Control: no-cache` and the query parameter `filter` set to the
comma-joined list
`lyricLineAllText,name,singer,picUrl,duration,progress`. -/
theorem c9_request_shape (url : String) :
    (sseRequest url).method = "GET" ∧
    (sseRequest url).headers =
      [("Accept", "text/event-stream"), ("Cache-Control", "no-cache")] ∧
    (sseRequest url).params =
      [("filter",
        String.intercalate ","
          ["lyricLineAllText", "name", "singer", "picUrl", "duration", "progress"])] := by
  exact ⟨rfl, rfl, rfl⟩

/-- C5: the claim requires `stop()` to cancel a pending 5-second
retry timer.  The code schedules the retry iff the flag is still set
and the timer cannot fire before its deadline, but the
`threading.Timer` is never stored or cancelled: after a failure at
t=0 and a `stop()` at t=2, the timer is still pending and fires at
t=5, re-invoking `start`, whose first statement sets `running = True`
— the retry fires after `stop()`. -/
theorem c5_retry_timer_uncancelled :
    schedRun ⟨true, [], 0⟩ [(0, .fail), (2, .stop)] = some ⟨false, [5], 2⟩ ∧
    schedRun ⟨true, [], 0⟩ [(0, .fail), (2, .stop), (5, .fire 5)] =
      some ⟨true, [], 5⟩ ∧
    schedRun ⟨true, [], 0⟩ [(0, .fail), (2, .stop), (4, .fire 5)] = none ∧
    schedRun ⟨false, [], 0⟩ [(3, .fail)] = some ⟨false, [], 3⟩ := by
  decide

/-- C6: once `stop()` has been called (the running flag reads false),
the read loop applies no further event block and publishes no further
snapshot even if the connection later delivers buffered lines, and the
invocation ends without scheduling a retry whatever the connection
does. -/
theorem c6_stop_halts_loop (jl : String → Option PyVal) (st : MusicData) :
    (∀ conn, (startOnce jl (some 0) st conn).retryScheduled = false) ∧
    (∀ lines, startOnce jl (some 0) st (.stream lines .closed) = ⟨st, [], false⟩) := by
  constructor
  · intro conn
    cases conn with
    | connectFail => simp [startOnce, flagAt]
    | stream lines ending =>
      cases lines with
      | nil => cases ending <;> simp [startOnce, loopGo, flagAt]
      | cons l rest => cases ending <;> simp [startOnce, loopGo, flagAt]
  · intro lines
    cases lines with
    | nil => simp [startOnce, loopGo, flagAt]
    | cons l rest => simp [startOnce, loopGo, flagAt]

lemma tryBody_lyric (st : MusicData) (d : PyVal) :
    tryBody st "lyricLineAllText" d = .ok { st with lyrics_text := d } := rfl

lemma tryBody_name (st : MusicData) (d : PyVal) :
    tryBody st "name" d = .ok { st with song_name := d } := rfl

lemma tryBody_singer (st : MusicData) (d : PyVal) :
    tryBody st "singer" d = .ok { st with artist := d } := rfl

lemma tryBody_picUrl (st : MusicData) (d : PyVal) :
    tryBody st "picUrl" d = .ok { st with cover_url := d } := rfl

lemma tryBody_dur (st : MusicData) (d : PyVal) :
    tryBody st "duration" d = numericUpdate st d (fun s f => { s with duration := f }) :=
  rfl

lemma tryBody_prog (st : MusicData) (d : PyVal) :
    tryBody st "progress" d = numericUpdate st d (fun s f => { s with progress := f }) :=
  rfl

lemma tryBody_other (st : MusicData) (ty : String) (d : PyVal)
    (h1 : ty ≠ "lyricLineAllText") (h2 : ty ≠ "name") (h3 : ty ≠ "singer")
    (h4 : ty ≠ "picUrl") (h5 : ty ≠ "duration") (h6 : ty ≠ "progress") :
    tryBody st ty d = .ok st := by
  unfold tryBody
  rw [if_neg h1, if_neg h2, if_neg h3, if_neg h4, if_neg h5, if_neg h6]

lemma numericUpdate_shape (st : MusicData) (d : PyVal)
    (setF : MusicData → PyFloat → MusicData) :
    (∃ e, numericUpdate st d setF = .error e) ∨
    numericUpdate st d setF = .ok (setF st (.fin 0)) ∨
    ∃ g, numericUpdate st d setF = .ok (setF st (pymax g (.fin 0))) := by
  unfold numericUpdate
  by_cases h : pyTruthy d
  · rw [if_pos h]
    cases hv : pyFloatOfVal d with
    | ok f => exact Or.inr (Or.inr ⟨f, rfl⟩)
    | error e => exact Or.inl ⟨e, rfl⟩
  · rw [if_neg h]
    exact Or.inr (Or.inl rfl)

lemma update_eq_ok (st : MusicData) (ty : String) (d : PyVal) (st2 : MusicData)
    (h : tryBody st ty d = .ok st2) :
    update_music_data st ty d = ⟨st2, [snapshotOf st2], false, none⟩ := by
  unfold update_music_data
  rw [h]

lemma update_eq_ve (st : MusicData) (ty : String) (d : PyVal)
    (h : tryBody st ty d = .error .valueError) :
    update_music_data st ty d = ⟨st, [], true, none⟩ := by
  unfold update_music_data
  rw [h]

lemma update_eq_te (st : MusicData) (ty : String) (d : PyVal)
    (h : tryBody st ty d = .error .typeError) :
    update_music_data st ty d = ⟨st, [], false, some .typeError⟩ := by
  unfold update_music_data
  rw [h]

lemma update_state_of_error (st : MusicData) (ty : String) (d : PyVal)
    (h : ∃ e, tryBody st ty d = .error e) :
    (update_music_data st ty d).state = st := by
  rcases h with ⟨e, he⟩
  cases e
  · rw [update_eq_ve st ty d he]
  · rw [update_eq_te st ty d he]

lemma update_state_cases (st : MusicData) (ty : String) (d : PyVal) :
    (update_music_data st ty d).state = st ∨
    (ty = "lyricLineAllText" ∧
      (update_music_data st ty d).state = { st with lyrics_text := d }) ∨
    (ty = "name" ∧ (update_music_data st ty d).state = { st with song_name := d }) ∨
    (ty = "singer" ∧ (update_music_data st ty d).state = { st with artist := d }) ∨
    (ty = "picUrl" ∧ (update_music_data st ty d).state = { st with cover_url := d }) ∨
    (ty = "duration" ∧ ∃ f, (f = .fin 0 ∨ ∃ g, f = pymax g (.fin 0)) ∧
      (update_music_data st ty d).state = { st with duration := f }) ∨
    (ty = "progress" ∧ ∃ f, (f = .fin 0 ∨ ∃ g, f = pymax g (.fin 0)) ∧
      (update_music_data st ty d).state = { st with progress := f }) := by
  by_cases h1 : ty = "lyricLineAllText"
  · subst h1
    exact Or.inr (Or.inl ⟨rfl, by rw [update_eq_ok _ _ _ _ (tryBody_lyric st d)]⟩)
  by_cases h2 : ty = "name"
  · subst h2
    exact Or.inr (Or.inr (Or.inl ⟨rfl, by rw [update_eq_ok _ _ _ _ (tryBody_name st d)]⟩))
  by_cases h3 : ty = "singer"
  · subst h3
    exact Or.inr (Or.inr (Or.inr (Or.inl
      ⟨rfl, by rw [update_eq_ok _ _ _ _ (tryBody_singer st d)]⟩)))
  by_cases h4 : ty = "picUrl"
  · subst h4
    exact Or.inr (Or.inr (Or.inr (Or.inr (Or.inl
      ⟨rfl, by rw [update_eq_ok _ _ _ _ (tryBody_picUrl st d)]⟩))))
  by_cases h5 : ty = "duration"
  · subst h5
    rcases numericUpdate_shape st d (fun s f => { s with duration := f }) with
      ⟨e, he⟩ | he | ⟨g, he⟩
    · exact Or.inl (update_state_of_error _ _ _ ⟨e, (tryBody_dur st d).trans he⟩)
    · refine Or.inr (Or.inr (Or.inr (Or.inr (Or.inr (Or.inl
        ⟨rfl, .fin 0, Or.inl rfl, ?_⟩)))))
      rw [update_eq_ok _ _ _ _ ((tryBody_dur st d).trans he)]
    · refine Or.inr (Or.inr (Or.inr (Or.inr (Or.inr (Or.inl
        ⟨rfl, pymax g (.fin 0), Or.inr ⟨g, rfl⟩, ?_⟩)))))
      rw [update_eq_ok _ _ _ _ ((tryBody_dur st d).trans he)]
  by_cases h6 : ty = "progress"
  · subst h6
    rcases numericUpdate_shape st d (fun s f => { s with progress := f }) with
      ⟨e, he⟩ | he | ⟨g, he⟩
    · exact Or.inl (update_state_of_error _ _ _ ⟨e, (tryBody_prog st d).trans he⟩)
    · refine Or.inr (Or.inr (Or.inr (Or.inr (Or.inr (Or.inr
        ⟨rfl, .fin 0, Or.inl rfl, ?_⟩)))))
      rw [update_eq_ok _ _ _ _ ((tryBody_prog st d).trans he)]
    · refine Or.inr (Or.inr (Or.inr (Or.inr (Or.inr (Or.inr
        ⟨rfl, pymax g (.fin 0), Or.inr ⟨g, rfl⟩, ?_⟩)))))
      rw [update_eq_ok _ _ _ _ ((tryBody_prog st d).trans he)]
  · exact Or.inl (by
      rw [update_eq_ok _ _ _ _ (tryBody_other st ty d h1 h2 h3 h4 h5 h6)])

/-- C2: `_update_music_data` modifies at most the single store field
mapped to the record's event type, leaves every other field at its
previous value, and an event type outside the mapping leaves all six
fields unchanged; applying `name="A"`, `singer="B"`, `picUrl=""` in
sequence yields title "A", artist "B", empty cover, with lyrics,
duration and progress retained. -/
theorem c2_frame (st : MusicData) (ty : String) (d : PyVal) :
    (ty ≠ "lyricLineAllText" →
      (update_music_data st ty d).state.lyrics_text = st.lyrics_text) ∧
    (ty ≠ "name" → (update_music_data st ty d).state.song_name = st.song_name) ∧
    (ty ≠ "singer" → (update_music_data st ty d).state.artist = st.artist) ∧
    (ty ≠ "picUrl" → (update_music_data st ty d).state.cover_url = st.cover_url) ∧
    (ty ≠ "duration" → (update_music_data st ty d).state.duration = st.duration) ∧
    (ty ≠ "progress" → (update_music_data st ty d).state.progress = st.progress) ∧
    (ty ∉ (["lyricLineAllText", "name", "singer", "picUrl", "duration",
            "progress"] : List String) →
      (update_music_data st ty d).state = st) ∧
    ((update_music_data ((update_music_data ((update_music_data st "name"
        (.str "A")).state) "singer" (.str "B")).state) "picUrl"
        (.str "")).state.song_name = .str "A" ∧
     (update_music_data ((update_music_data ((update_music_data st "name"
        (.str "A")).state) "singer" (.str "B")).state) "picUrl"
        (.str "")).state.artist = .str "B" ∧
     (update_music_data ((update_music_data ((update_music_data st "name"
        (.str "A")).state) "singer" (.str "B")).state) "picUrl"
        (.str "")).state.cover_url = .str "" ∧
     (update_music_data ((update_music_data ((update_music_data st "name"
        (.str "A")).state) "singer" (.str "B")).state) "picUrl"
        (.str "")).state.lyrics_text = st.lyrics_text ∧
     (update_music_data ((update_music_data ((update_music_data st "name"
        (.str "A")).state) "singer" (.str "B")).state) "picUrl"
        (.str "")).state.duration = st.duration ∧
     (update_music_data ((update_music_data ((update_music_data st "name"
        (.str "A")).state) "singer" (.str "B")).state) "picUrl"
        (.str "")).state.progress = st.progress) := by
  have key := update_state_cases st ty d
  refine ⟨?_, ?_, ?_, ?_, ?_, ?_, ?_, rfl, rfl, rfl, rfl, rfl, rfl⟩
  · intro h
    rcases key with h0 | ⟨he, _⟩ | ⟨_, h0⟩ | ⟨_, h0⟩ | ⟨_, h0⟩ | ⟨_, _, _, h0⟩ |
      ⟨_, _, _, h0⟩ <;> first | exact absurd he h | rw [h0]
  · intro h
    rcases key with h0 | ⟨_, h0⟩ | ⟨he, _⟩ | ⟨_, h0⟩ | ⟨_, h0⟩ | ⟨_, _, _, h0⟩ |
      ⟨_, _, _, h0⟩ <;> first | exact absurd he h | rw [h0]
  · intro h
    rcases key with h0 | ⟨_, h0⟩ | ⟨_, h0⟩ | ⟨he, _⟩ | ⟨_, h0⟩ | ⟨_, _, _, h0⟩ |
      ⟨_, _, _, h0⟩ <;> first | exact absurd he h | rw [h0]
  · intro h
    rcases key with h0 | ⟨_, h0⟩ | ⟨_, h0⟩ | ⟨_, h0⟩ | ⟨he, _⟩ | ⟨_, _, _, h0⟩ |
      ⟨_, _, _, h0⟩ <;> first | exact absurd he h | rw [h0]
  · intro h
    rcases key with h0 | ⟨_, h0⟩ | ⟨_, h0⟩ | ⟨_, h0⟩ | ⟨_, h0⟩ | ⟨he, _⟩ |
      ⟨_, _, _, h0⟩ <;> first | exact absurd he h | rw [h0]
  · intro h
    rcases key with h0 | ⟨_, h0⟩ | ⟨_, h0⟩ | ⟨_, h0⟩ | ⟨_, h0⟩ | ⟨_, _, _, h0⟩ |
      ⟨he, _⟩ <;> first | exact absurd he h | rw [h0]
  · intro h
    simp only [List.mem_cons, List.mem_singleton, not_or] at h
    obtain ⟨n1, n2, n3, n4, n5, n6⟩ := h
    rw [update_eq_ok _ _ _ _ (tryBody_other st ty d n1 n2 n3 n4 n5
      (by simpa using n6))]

/-- Closed instance of `c2_frame`: a `name` event leaves the lyrics
field untouched. -/
theorem c2_frame_witness :
    ("name" ≠ "lyricLineAllText") ∧
    (update_music_data initMusicData "name" (.str "A")).state.lyrics_text =
      initMusicData.lyrics_text :=
  ⟨by decide, (c2_frame initMusicData "name" (.str "A")).1 (by decide)⟩

lemma pyFloatOfVal_str (s : String) :
    pyFloatOfVal (.str s) =
      match pyfloat s with
      | some f => .ok f
      | none => .error .valueError := rfl

lemma numericUpdate_str (st : MusicData) (s : String)
    (setF : MusicData → PyFloat → MusicData) :
    numericUpdate st (.str s) setF = .error .valueError ∨
    ∃ st2, numericUpdate st (.str s) setF = .ok st2 := by
  unfold numericUpdate
  by_cases h : pyTruthy (.str s)
  · rw [if_pos h, pyFloatOfVal_str]
    cases hp : pyfloat s with
    | some f => exact Or.inr ⟨_, rfl⟩
    | none => exact Or.inl rfl
  · rw [if_neg h]
    exact Or.inr ⟨_, rfl⟩

/-- C3 (amended): an empty `duration`/`progress` payload sets the field
to 0, but a non-empty payload that fails float parsing leaves the field
at its prior value — the assignment is skipped because `float` raises
inside the `try` — with the warning logged, no snapshot emitted, and no
exception escaping. -/
theorem c3_numeric_failure (st : MusicData) (s : String) :
    (update_music_data st "duration" (.str "")).state.duration = .fin 0 ∧
    (update_music_data st "progress" (.str "")).state.progress = .fin 0 ∧
    (s ≠ "" → pyfloat s = none →
      update_music_data st "duration" (.str s) = ⟨st, [], true, none⟩ ∧
      update_music_data st "progress" (.str s) = ⟨st, [], true, none⟩) := by
  refine ⟨rfl, rfl, ?_⟩
  intro hne hpf
  have ht : pyTruthy (.str s) = true := by
    simp [pyTruthy, hne]
  have hv : pyFloatOfVal (.str s) = .error .valueError := by
    rw [pyFloatOfVal_str, hpf]
  have hnum : ∀ setF, numericUpdate st (.str s) setF = .error .valueError := by
    intro setF
    unfold numericUpdate
    rw [if_pos ht, hv]
  constructor
  · exact update_eq_ve _ _ _ ((tryBody_dur st (.str s)).trans (hnum _))
  · exact update_eq_ve _ _ _ ((tryBody_prog st (.str s)).trans (hnum _))

/-- Closed instance of `c3_numeric_failure` at payload `"abc"`. -/
theorem c3_numeric_failure_witness :
    ("abc" : String) ≠ "" ∧ pyfloat "abc" = none ∧
    update_music_data { initMusicData with duration := .fin 5 } "duration"
      (.str "abc") = ⟨{ initMusicData with duration := .fin 5 }, [], true, none⟩ :=
  ⟨by decide, by decide,
    ((c3_numeric_failure { initMusicData with duration := .fin 5 } "abc").2.2
      (by decide) (by decide)).1⟩

/-- C3 counterexample: the claim says a `duration` payload failing
float parsing sets the field to 0 regardless of its prior value; from
a store with duration 5, payload `"abc"` leaves the field at 5. -/
theorem c3_counterexample :
    (update_music_data { initMusicData with duration := .fin 5 } "duration"
      (.str "abc")).state.duration = .fin 5 ∧
    ¬ (update_music_data { initMusicData with duration := .fin 5 } "duration"
      (.str "abc")).state.duration = .fin 0 := by
  decide

/-- C4 (amended): for every string payload — in particular every
payload that raw or JSON-string data lines produce — and for every
non-numeric event type with any payload, `_update_music_data` raises no
exception to its caller: `float` parse failures become the logged
`ValueError` warning. -/
theorem c4_no_raise_for_strings (st : MusicData) (ty : String) (s : String)
    (d : PyVal) :
    (update_music_data st ty (.str s)).exn = none ∧
    (ty ≠ "duration" → ty ≠ "progress" → (update_music_data st ty d).exn = none) := by
  constructor
  · by_cases h1 : ty = "lyricLineAllText"
    · subst h1; rw [update_eq_ok _ _ _ _ (tryBody_lyric st _)]
    by_cases h2 : ty = "name"
    · subst h2; rw [update_eq_ok _ _ _ _ (tryBody_name st _)]
    by_cases h3 : ty = "singer"
    · subst h3; rw [update_eq_ok _ _ _ _ (tryBody_singer st _)]
    by_cases h4 : ty = "picUrl"
    · subst h4; rw [update_eq_ok _ _ _ _ (tryBody_picUrl st _)]
    by_cases h5 : ty = "duration"
    · subst h5
      rcases numericUpdate_str st s (fun t f => { t with duration := f }) with he | ⟨st2, he⟩
      · rw [update_eq_ve _ _ _ ((tryBody_dur st _).trans he)]
      · rw [update_eq_ok _ _ _ _ ((tryBody_dur st _).trans he)]
    by_cases h6 : ty = "progress"
    · subst h6
      rcases numericUpdate_str st s (fun t f => { t with progress := f }) with he | ⟨st2, he⟩
      · rw [update_eq_ve _ _ _ ((tryBody_prog st _).trans he)]
      · rw [update_eq_ok _ _ _ _ ((tryBody_prog st _).trans he)]
    · rw [update_eq_ok _ _ _ _ (tryBody_other st ty _ h1 h2 h3 h4 h5 h6)]
  · intro h5 h6
    by_cases h1 : ty = "lyricLineAllText"
    · subst h1; rw [update_eq_ok _ _ _ _ (tryBody_lyric st d)]
    by_cases h2 : ty = "name"
    · subst h2; rw [update_eq_ok _ _ _ _ (tryBody_name st d)]
    by_cases h3 : ty = "singer"
    · subst h3; rw [update_eq_ok _ _ _ _ (tryBody_singer st d)]
    by_cases h4 : ty = "picUrl"
    · subst h4; rw [update_eq_ok _ _ _ _ (tryBody_picUrl st d)]
    · rw [update_eq_ok _ _ _ _ (tryBody_other st ty d h1 h2 h3 h4 h5 h6)]

/-- Closed instance of `c4_no_raise_for_strings`: an unmapped event
type with a JSON-object payload raises nothing. -/
theorem c4_no_raise_witness :
    ("name" : String) ≠ "duration" ∧ ("name" : String) ≠ "progress" ∧
    (update_music_data initMusicData "name" (.obj [("a", "1")])).exn = none :=
  ⟨by decide, by decide,
    (c4_no_raise_for_strings initMusicData "name" "" (.obj [("a", "1")])).2
      (by decide) (by decide)⟩

/-- C4 counterexample: a JSON-object payload (which the parser can
produce from a `data:{...}` line) on a `duration` record makes
`float(dict)` raise `TypeError`, which the `except ValueError` handler
does not catch — the exception escapes to the read loop. -/
theorem c4_counterexample :
    (update_music_data initMusicData "duration" (.obj [("a", "1")])).exn =
      some .typeError := by
  decide

lemma pymax_clamp (g : PyFloat) :
    pymax g (.fin 0) = .nan ∨ pyge (pymax g (.fin 0)) (.fin 0) = true := by
  cases g with
  | nan => exact Or.inl rfl
  | inf => exact Or.inr rfl
  | ninf => exact Or.inr (by decide)
  | fin q =>
    right
    by_cases h : q < 0
    · have hb : pygt (.fin 0) (.fin q) = true := by simp [pygt, h]
      simp [pymax, hb, pyge]
    · have hb : pygt (.fin 0) (.fin q) = false := by simp [pygt, h]
      simp [pymax, hb, pyge, le_of_not_lt h]

/-- Each of the two time fields is NaN or non-negative. -/
def storeNonneg (st : MusicData) : Prop :=
  (st.duration = .nan ∨ pyge st.duration (.fin 0) = true) ∧
  (st.progress = .nan ∨ pyge st.progress (.fin 0) = true)

lemma update_preserves_nonneg (st : MusicData) (ty : String) (d : PyVal)
    (h : storeNonneg st) : storeNonneg (update_music_data st ty d).state := by
  rcases update_state_cases st ty d with h0 | ⟨_, h0⟩ | ⟨_, h0⟩ | ⟨_, h0⟩ | ⟨_, h0⟩ |
    ⟨_, f, hf, h0⟩ | ⟨_, f, hf, h0⟩
  · rw [h0]; exact h
  · rw [h0]; exact h
  · rw [h0]; exact h
  · rw [h0]; exact h
  · rw [h0]; exact h
  · rw [h0]
    refine ⟨?_, h.2⟩
    rcases hf with rfl | ⟨g, rfl⟩
    · exact Or.inr rfl
    · exact pymax_clamp g
  · rw [h0]
    refine ⟨h.1, ?_⟩
    rcases hf with rfl | ⟨g, rfl⟩
    · exact Or.inr rfl
    · exact pymax_clamp g

/-- The store after applying a whole sequence of records. -/
def applyEvents (st : MusicData) (evs : List (String × PyVal)) : MusicData :=
  evs.foldl (fun s e => (update_music_data s e.1 e.2).state) st

lemma applyEvents_nonneg (evs : List (String × PyVal)) :
    ∀ st : MusicData, storeNonneg st → storeNonneg (applyEvents st evs) := by
  induction evs with
  | nil => intro st h; exact h
  | cons e rest ih =>
    intro st h
    exact ih _ (update_preserves_nonneg st e.1 e.2 h)

/-- C8 (amended): duration and progress start at 0 and, after any
sequence of records, each is non-negative or NaN — a successfully
parsed non-NaN payload is clamped to ≥ 0, but `float("nan")` parses
and `max(nan, 0.0)` is `nan`, so NaN is reachable. -/
theorem c8_nonneg_or_nan :
    initMusicData.duration = .fin 0 ∧ initMusicData.progress = .fin 0 ∧
    ∀ evs : List (String × PyVal), storeNonneg (applyEvents initMusicData evs) := by
  refine ⟨rfl, rfl, ?_⟩
  intro evs
  exact applyEvents_nonneg evs initMusicData ⟨Or.inr (by decide), Or.inr (by decide)⟩

/-- C8 counterexample: the payload `"nan"` parses successfully, is not
clamped (`max(nan, 0.0) = nan`), and the resulting duration is not
`≥ 0`. -/
theorem c8_counterexample :
    (applyEvents initMusicData [("duration", .str "nan")]).duration = .nan ∧
    pyge (applyEvents initMusicData [("duration", .str "nan")]).duration
      (.fin 0) = false := by
  decide

/-- C10 (amended): an invocation of `_update_music_data` that returns
normally without the `ValueError` warning emits exactly one snapshot —
the six-field record of the store's current values — including for
unmapped event types and the empty `("", "")` record; an invocation
absorbing a numeric parse failure returns normally but emits nothing,
and an invocation whose exception escapes emits nothing. -/
theorem c10_emit_characterization (st : MusicData) (ty : String) (d : PyVal) :
    ((update_music_data st ty d).exn = none →
      (update_music_data st ty d).warned = false →
      (update_music_data st ty d).emitted =
        [snapshotOf (update_music_data st ty d).state]) ∧
    ((update_music_data st ty d).warned = true →
      (update_music_data st ty d).emitted = []) ∧
    ((update_music_data st ty d).exn ≠ none →
      (update_music_data st ty d).emitted = []) ∧
    (ty ∉ (["lyricLineAllText", "name", "singer", "picUrl", "duration",
            "progress"] : List String) →
      update_music_data st ty d = ⟨st, [snapshotOf st], false, none⟩) ∧
    update_music_data st "" (.str "") = ⟨st, [snapshotOf st], false, none⟩ := by
  refine ⟨?_, ?_, ?_, ?_, ?_⟩
  · cases h : tryBody st ty d with
    | ok st2 => rw [update_eq_ok _ _ _ _ h]; intro _ _; rfl
    | error e =>
      cases e with
      | valueError => rw [update_eq_ve _ _ _ h]; intro _ hw; simp at hw
      | typeError => rw [update_eq_te _ _ _ h]; intro hx; simp at hx
  · cases h : tryBody st ty d with
    | ok st2 => rw [update_eq_ok _ _ _ _ h]; intro hw; simp at hw
    | error e =>
      cases e with
      | valueError => rw [update_eq_ve _ _ _ h]; intro _; rfl
      | typeError => rw [update_eq_te _ _ _ h]; intro _; rfl
  · cases h : tryBody st ty d with
    | ok st2 => rw [update_eq_ok _ _ _ _ h]; intro hx; exact absurd rfl hx
    | error e =>
      cases e with
      | valueError => rw [update_eq_ve _ _ _ h]; intro _; rfl
      | typeError => rw [update_eq_te _ _ _ h]; intro _; rfl
  · intro h
    simp only [List.mem_cons, List.mem_singleton, not_or] at h
    obtain ⟨n1, n2, n3, n4, n5, n6⟩ := h
    rw [update_eq_ok _ _ _ _ (tryBody_other st ty d n1 n2 n3 n4 n5
      (by simpa using n6))]
  · exact update_eq_ok _ _ _ _ (tryBody_other st "" (.str "") (by decide) (by decide)
      (by decide) (by decide) (by decide) (by decide))

/-- Closed instance of `c10_emit_characterization`: an unmapped event
still publishes one snapshot of the (unchanged) store. -/
theorem c10_emit_witness :
    (update_music_data initMusicData "wat" (.str "x")).emitted =
      [snapshotOf (update_music_data initMusicData "wat" (.str "x")).state] :=
  (c10_emit_characterization initMusicData "wat" (.str "x")).1 (by decide) (by decide)

/-- C10 counterexample: a `duration` record with unparsable payload
returns normally (the `ValueError` is absorbed as a warning) yet emits
no snapshot, refuting "every invocation that returns normally emits
exactly one snapshot". -/
theorem c10_counterexample :
    (update_music_data initMusicData "duration" (.str "abc")).exn = none ∧
    (update_music_data initMusicData "duration" (.str "abc")).warned = true ∧
    (update_music_data initMusicData "duration" (.str "abc")).emitted = [] := by
  decide

lemma mk_data (l : List Char) : (String.mk l).data = l := rfl

lemma event_chars : ("event:" : String).data = ['e', 'v', 'e', 'n', 't', ':'] := rfl

lemma data_chars : ("data:" : String).data = ['d', 'a', 't', 'a', ':'] := rfl

lemma isPre_append (p l : List Char) : List.isPrefixOf p (p ++ l) = true := by
  induction p with
  | nil => simp [List.isPrefixOf]
  | cons c cs ih => simp [List.isPrefixOf, ih]

lemma ev_excl (s : String) (h : strHasPre "event:" s = true) :
    strHasPre "data:" s = false := by
  unfold strHasPre at h ⊢
  rw [event_chars] at h
  rw [data_chars]
  cases hs : s.data with
  | nil => rw [hs] at h; simp [List.isPrefixOf] at h
  | cons c cs =>
    rw [hs] at h
    simp only [List.isPrefixOf, Bool.and_eq_true, beq_iff_eq] at h
    obtain ⟨hc, _⟩ := h
    subst hc
    have hde : (('d' : Char) == 'e') = false := by decide
    simp [List.isPrefixOf, hde]

lemma dropWhile_eq_self_of_head (p : Char → Bool) (l : List Char)
    (h : ∀ c, l.head? = some c → p c = false) : l.dropWhile p = l := by
  cases l with
  | nil => rfl
  | cons c cs => simp [List.dropWhile_cons, h c rfl]

lemma stripChars_eq_self (l : List Char)
    (h1 : ∀ c, l.head? = some c → isPySpace c = false)
    (h2 : ∀ c, l.getLast? = some c → isPySpace c = false) :
    stripChars l = l := by
  unfold stripChars
  rw [dropWhile_eq_self_of_head _ l h1]
  rw [dropWhile_eq_self_of_head _ l.reverse
    (fun c hc => h2 c (by rwa [List.head?_reverse] at hc))]
  exact List.reverse_reverse l

lemma noEdgeSpace_head (t : String) (h : noEdgeSpace t = true) :
    ∀ c, t.data.head? = some c → isPySpace c = false := by
  intro c hc
  unfold noEdgeSpace at h
  rw [Bool.and_eq_true] at h
  have h1 := h.1
  rw [hc] at h1
  simpa using h1

lemma noEdgeSpace_last (t : String) (h : noEdgeSpace t = true) :
    ∀ c, t.data.getLast? = some c → isPySpace c = false := by
  intro c hc
  unfold noEdgeSpace at h
  rw [Bool.and_eq_true] at h
  have h2 := h.2
  rw [hc] at h2
  simpa using h2

lemma splitOnNl_no_nl (l : List Char) (h : ∀ c ∈ l, c ≠ '\n') :
    splitOnNl l = [l] := by
  induction l with
  | nil => rfl
  | cons c cs ih =>
    have hc : ¬ c = '\n' := h c (List.mem_cons_self c cs)
    simp only [splitOnNl]
    rw [if_neg hc, ih (fun x hx => h x (List.mem_cons_of_mem c hx))]

lemma splitOnNl_append (a b : List Char) (h : ∀ c ∈ a, c ≠ '\n') :
    splitOnNl (a ++ '\n' :: b) = a :: splitOnNl b := by
  induction a with
  | nil =>
    simp only [List.nil_append, splitOnNl]
    simp
  | cons c cs ih =>
    have hc : ¬ c = '\n' := h c (List.mem_cons_self c cs)
    simp only [List.cons_append, splitOnNl, List.append_eq]
    rw [if_neg hc, ih (fun x hx => h x (List.mem_cons_of_mem c hx))]

lemma foldl_parseStep (jl : String → Option PyVal) (lines : List String) :
    ∀ acc : String × PyVal,
      lines.foldl (parseStep jl) acc =
        ((findLast evOf lines).getD acc.1,
         match findLast dataOf lines with
         | some d => decodePayload jl d
         | none => acc.2) := by
  induction lines with
  | nil => intro acc; rfl
  | cons l ls ih =>
    intro acc
    rw [List.foldl_cons, ih (parseStep jl acc l)]
    by_cases hev : strHasPre "event:" (pyStrip l)
    · have hda : strHasPre "data:" (pyStrip l) = false := ev_excl _ hev
      cases he : findLast evOf ls <;> cases hd : findLast dataOf ls <;>
        simp [findLast, he, hd, parseStep, evOf, dataOf, hev, hda]
    · by_cases hda : strHasPre "data:" (pyStrip l)
      · cases he : findLast evOf ls <;> cases hd : findLast dataOf ls <;>
          simp [findLast, he, hd, parseStep, evOf, dataOf, hev, hda]
      · cases he : findLast evOf ls <;> cases hd : findLast dataOf ls <;>
          simp [findLast, he, hd, parseStep, evOf, dataOf, hev, hda]

lemma stripChars_label_append (lab : List Char) (t : String)
    (h1 : ∀ c, lab.head? = some c → isPySpace c = false)
    (h2 : ∀ c, lab.getLast? = some c → isPySpace c = false)
    (hlab : lab ≠ [])
    (het : noEdgeSpace t = true) :
    stripChars (lab ++ t.data) = lab ++ t.data := by
  apply stripChars_eq_self
  · intro c hc
    cases lab with
    | nil => exact absurd rfl hlab
    | cons x xs =>
      rw [List.cons_append, List.head?_cons] at hc
      obtain rfl := Option.some_inj.mp hc
      exact h1 x rfl
  · intro c hc
    by_cases htd : t.data = []
    · rw [htd, List.append_nil] at hc
      exact h2 c hc
    · rw [List.getLast?_append_of_ne_nil _ htd] at hc
      exact noEdgeSpace_last t het c hc

lemma pyStrip_self (t : String) (het : noEdgeSpace t = true) : pyStrip t = t := by
  unfold pyStrip
  rw [stripChars_eq_self t.data (noEdgeSpace_head t het) (noEdgeSpace_last t het)]

lemma event_head_ok : ∀ c, (("event:" : String).data).head? = some c →
    isPySpace c = false := by
  intro c hc
  obtain rfl := Option.some_inj.mp hc
  decide

lemma event_last_ok : ∀ c, (("event:" : String).data).getLast? = some c →
    isPySpace c = false := by
  intro c hc
  rw [show (("event:" : String).data).getLast? = some ':' by decide] at hc
  obtain rfl := Option.some_inj.mp hc
  decide

lemma data_head_ok : ∀ c, (("data:" : String).data).head? = some c →
    isPySpace c = false := by
  intro c hc
  obtain rfl := Option.some_inj.mp hc
  decide

lemma data_last_ok : ∀ c, (("data:" : String).data).getLast? = some c →
    isPySpace c = false := by
  intro c hc
  rw [show (("data:" : String).data).getLast? = some ':' by decide] at hc
  obtain rfl := Option.some_inj.mp hc
  decide

lemma parseStep_event_line (jl : String → Option PyVal) (acc : String × PyVal)
    (t : String) (het : noEdgeSpace t = true) :
    parseStep jl acc ⟨("event:" : String).data ++ t.data⟩ = (t, acc.2) := by
  have hstrip : pyStrip ⟨("event:" : String).data ++ t.data⟩ =
      ⟨("event:" : String).data ++ t.data⟩ := by
    unfold pyStrip
    rw [mk_data,
      stripChars_label_append _ t event_head_ok event_last_ok (by decide) het]
  have hpre : strHasPre "event:" ⟨("event:" : String).data ++ t.data⟩ = true := by
    unfold strHasPre
    rw [mk_data]
    exact isPre_append _ _
  have hdrop : strDrop 6 ⟨("event:" : String).data ++ t.data⟩ = t := by
    unfold strDrop
    rw [mk_data]
    have h6 : (("event:" : String).data).length = 6 := rfl
    rw [List.drop_left' h6]
  simp only [parseStep]
  rw [hstrip, if_pos hpre, hdrop, pyStrip_self t het]

lemma parseStep_data_line (jl : String → Option PyVal) (acc : String × PyVal)
    (d : String) (hed : noEdgeSpace d = true) :
    parseStep jl acc ⟨("data:" : String).data ++ d.data⟩ =
      (acc.1, decodePayload jl d) := by
  have hstrip : pyStrip ⟨("data:" : String).data ++ d.data⟩ =
      ⟨("data:" : String).data ++ d.data⟩ := by
    unfold pyStrip
    rw [mk_data,
      stripChars_label_append _ d data_head_ok data_last_ok (by decide) hed]
  have hne : ¬ strHasPre "event:" (⟨("data:" : String).data ++ d.data⟩ : String) = true := by
    unfold strHasPre
    rw [mk_data, event_chars, data_chars]
    simp only [List.cons_append]
    have hed' : (('e' : Char) == 'd') = false := by decide
    simp [List.isPrefixOf, hed']
  have hpre : strHasPre "data:" ⟨("data:" : String).data ++ d.data⟩ = true := by
    unfold strHasPre
    rw [mk_data]
    exact isPre_append _ _
  have hdrop : strDrop 5 ⟨("data:" : String).data ++ d.data⟩ = d := by
    unfold strDrop
    rw [mk_data]
    have h5 : (("data:" : String).data).length = 5 := rfl
    rw [List.drop_left' h5]
  simp only [parseStep]
  rw [hstrip, if_neg hne, if_pos hpre, hdrop, pyStrip_self d hed]

/-- C1: for every event block, `_parse_event_data` returns the pair
whose event type is the trimmed remainder of the last `event:` line
(empty string if none) and whose payload is the trimmed remainder of
the last `data:` line (empty string if none), JSON-decoded exactly
when it starts with `"` or `{` and the decoder succeeds — a decode
failure keeps the raw trimmed string and never raises — while lines
with other prefixes are ignored; and parsing the block built from
`event:<t>` and `data:<d>` reconstructs `(t, d)` (with `d`
JSON-decoded in the quote/brace case) for any newline-free `t`, `d`
without edge whitespace. -/
theorem c1_parse_event_data_spec (jl : String → Option PyVal) :
    (∀ s : String,
      parse_event_data jl s =
        ((findLast evOf (splitNlStr s)).getD "",
         decodePayload jl ((findLast dataOf (splitNlStr s)).getD ""))) ∧
    (∀ t d : String, (∀ c ∈ t.data, c ≠ '\n') → (∀ c ∈ d.data, c ≠ '\n') →
      noEdgeSpace t = true → noEdgeSpace d = true →
      parse_event_data jl ("event:" ++ t ++ "\n" ++ "data:" ++ d) =
        (t, decodePayload jl d)) := by
  constructor
  · intro s
    unfold parse_event_data
    rw [foldl_parseStep]
    cases hd : findLast dataOf (splitNlStr s) with
    | some d => rfl
    | none => rfl
  · intro t d hnt hnd het hed
    have hA : ∀ c ∈ (("event:" : String).data ++ t.data), c ≠ '\n' := by
      intro c hc
      rcases List.mem_append.mp hc with h | h
      · rw [event_chars] at h
        simp only [List.mem_cons, List.not_mem_nil, or_false] at h
        rcases h with rfl | rfl | rfl | rfl | rfl | rfl <;> decide
      · exact hnt c h
    have hB : ∀ c ∈ (("data:" : String).data ++ d.data), c ≠ '\n' := by
      intro c hc
      rcases List.mem_append.mp hc with h | h
      · rw [data_chars] at h
        simp only [List.mem_cons, List.not_mem_nil, or_false] at h
        rcases h with rfl | rfl | rfl | rfl | rfl <;> decide
      · exact hnd c h
    have hsplit : splitNlStr ("event:" ++ t ++ "\n" ++ "data:" ++ d) =
        [⟨("event:" : String).data ++ t.data⟩,
         ⟨("data:" : String).data ++ d.data⟩] := by
      unfold splitNlStr
      have hdata : ("event:" ++ t ++ "\n" ++ "data:" ++ d).data =
          (("event:" : String).data ++ t.data) ++
            '\n' :: (("data:" : String).data ++ d.data) := by
        simp only [String.data_append]
        simp [List.append_assoc, List.singleton_append]
      rw [hdata, splitOnNl_append _ _ hA, splitOnNl_no_nl _ hB]
      rfl
    unfold parse_event_data
    rw [hsplit, List.foldl_cons, List.foldl_cons, List.foldl_nil,
      parseStep_event_line jl _ t het, parseStep_data_line jl _ d hed]

/-- Closed instance of the `c1_parse_event_data_spec` round trip. -/
theorem c1_parse_witness :
    parse_event_data (fun _ => none) "event:play\ndata:hello" =
      ("play", .str "hello") :=
  (c1_parse_event_data_spec (fun _ => none)).2 "play" "hello"
    (by decide) (by decide) (by decide) (by decide)

/-- C7: every `requests.RequestException` that reaches the handler of
`SSEClient.start` — a failed connect, or a transport error ending the
stream after its lines ran out — emits exactly one cleared snapshot
with the sentinel values, immediately, before any retry is scheduled
(the retry, if the flag still reads true, is the next action). -/
theorem c7_cleared_snapshot_on_failure (jl : String → Option PyVal)
    (stopAt : Option Nat) (st : MusicData) :
    (startOnce jl stopAt st .connectFail).actions =
      .emit clearedSnapshot :: (if flagAt stopAt 0 then [.schedRetry] else []) ∧
    (∀ lines, (loopGo jl stopAt 0 st [] lines).exit = .finished →
      (startOnce jl stopAt st (.stream lines .transportError)).actions =
        (loopGo jl stopAt 0 st [] lines).actions ++
          .emit clearedSnapshot ::
            (if flagAt stopAt (loopGo jl stopAt 0 st [] lines).idx
             then [.schedRetry] else [])) := by
  constructor
  · rfl
  · intro lines hfin
    simp only [startOnce]
    rw [hfin]

/-- Closed instance of `c7_cleared_snapshot_on_failure`: immediate
transport failure of an empty stream emits the cleared snapshot and
then schedules the retry. -/
theorem c7_cleared_witness :
    (loopGo (fun _ => none) none 0 initMusicData [] []).exit = .finished ∧
    (startOnce (fun _ => none) none initMusicData
        (.stream [] .transportError)).actions =
      (loopGo (fun _ => none) none 0 initMusicData [] []).actions ++
        .emit clearedSnapshot ::
          (if flagAt none (loopGo (fun _ => none) none 0 initMusicData [] []).idx
           then [.schedRetry] else []) :=
  ⟨rfl, (c7_cleared_snapshot_on_failure (fun _ => none) none initMusicData).2 [] rfl⟩
